import Mathlib

/-!
Verification of the NewsAI frontend's filter/pagination core
(frontend/js/state.js, frontend/js/configManager.js and the main
orchestrator script) against its natural-language specification.

The JavaScript modules are shallowly embedded: the flat mutable state of
state.js becomes the structure AppState, each exported setter becomes a
pure function AppState to AppState, event handlers of the orchestrator
script become functions composed of those setters, and the asynchronous
fetchAndDisplaySummaries is split into its synchronous prefix (run at
dispatch time, up to the await of the network call) and its continuation
(run when the response or error arrives), so that interleavings of
overlapping dispatches can be expressed as sequences of those two steps.
-/

/-- Whitespace as recognized by the JavaScript String.prototype.trim
(ASCII whitespace plus NBSP and BOM; the remaining Unicode space
separators are omitted as no claim exercises them). -/
def jsIsSpace (c : Char) : Bool :=
  c = ' ' || c = '\t' || c = '\n' || c = '\r' ||
  c = '\x0b' || c = '\x0c' || c = '\u00A0' || c = '\uFEFF'

/-- JavaScript String.prototype.trim on the character list level. -/
def jsTrimList (l : List Char) : List Char :=
  ((l.dropWhile jsIsSpace).reverse.dropWhile jsIsSpace).reverse

/-- JavaScript String.prototype.trim. -/
def jsTrim (s : String) : String :=
  String.mk (jsTrimList s.toList)

/-- A tag object as stored in state.activeTagFilterIds:
an object of shape id plus name. -/
structure Tag where
  id : Int
  name : String
deriving DecidableEq, Repr

/-- The mutable module-level state of frontend/js/state.js that the
filter/pagination core reads and writes (fields irrelevant to the
claims, such as prompts and chat state, are omitted).
dbFeedSources keeps only the feed ids, which is all the embedded
code paths inspect. -/
structure AppState where
  dbFeedSources : List Int
  articlesPerPage : Int
  currentPage : Int
  totalPages : Int
  totalArticlesAvailable : Int
  isLoadingMoreArticles : Bool
  activeFeedFilterIds : List Int
  activeTagFilterIds : List Tag
  currentKeywordSearch : Option String
deriving DecidableEq, Repr

/-- The initial values of the state.js module variables. -/
def initialState : AppState where
  dbFeedSources := []
  articlesPerPage := 6
  currentPage := 1
  totalPages := 1
  totalArticlesAvailable := 0
  isLoadingMoreArticles := false
  activeFeedFilterIds := []
  activeTagFilterIds := []
  currentKeywordSearch := none

/-- state.js setArticlesPerPage: updates only when the parsed count is a
number greater than zero. -/
def setArticlesPerPage (count : Int) (st : AppState) : AppState :=
  if 0 < count then { st with articlesPerPage := count } else st

/-- state.js setCurrentPage: updates only when the parsed page is a
number greater than zero. -/
def setCurrentPage (page : Int) (st : AppState) : AppState :=
  if 0 < page then { st with currentPage := page } else st

/-- state.js setTotalPages: updates only when the parsed value is a
number that is at least zero. -/
def setTotalPages (pages : Int) (st : AppState) : AppState :=
  if 0 ≤ pages then { st with totalPages := pages } else st

/-- state.js setTotalArticlesAvailable: updates only when the parsed
value is a number that is at least zero. -/
def setTotalArticlesAvailable (count : Int) (st : AppState) : AppState :=
  if 0 ≤ count then { st with totalArticlesAvailable := count } else st

/-- state.js setIsLoadingMoreArticles (the double-negation coercion to
boolean is the identity on an actual boolean). -/
def setIsLoadingMoreArticles (isLoading : Bool) (st : AppState) : AppState :=
  { st with isLoadingMoreArticles := isLoading }

/-- state.js setActiveFeedFilterIds; on the Int domain of the model the
parseInt-and-filter normalization is the identity. -/
def setActiveFeedFilterIds (ids : List Int) (st : AppState) : AppState :=
  { st with activeFeedFilterIds := ids }

/-- state.js setActiveTagFilterIds; the runtime type filter of the
source is the identity on well-typed tag objects. -/
def setActiveTagFilterIds (tagObjects : List Tag) (st : AppState) : AppState :=
  { st with activeTagFilterIds := tagObjects }

/-- state.js addActiveTagFilter: pushes the tag object at the end
unless a tag with the same id is already present. -/
def addActiveTagFilter (tagObj : Tag) (st : AppState) : AppState :=
  if st.activeTagFilterIds.any (fun t => t.id == tagObj.id) then st
  else { st with activeTagFilterIds := st.activeTagFilterIds ++ [tagObj] }

/-- state.js removeActiveTagFilter: keeps the tags whose id differs
from the removed id. -/
def removeActiveTagFilter (tagId : Int) (st : AppState) : AppState :=
  { st with
    activeTagFilterIds := st.activeTagFilterIds.filter (fun t => t.id ≠ tagId) }

/-- state.js setCurrentKeywordSearch: a string argument is stored
trimmed, any non-string argument (modelled by none) is stored as null. -/
def setCurrentKeywordSearch (keyword : Option String) (st : AppState) : AppState :=
  { st with currentKeywordSearch := keyword.map jsTrim }

/-- JavaScript truthiness test applied to the keyword state, which is
either null (none) or a string: null and the empty string are falsy. -/
def jsFalsyKw : Option String → Bool
  | none => true
  | some s => s == ""

/-- The fields of a backend article record that the embedded rendering
path inspects (uiManager.displayArticleResults builds one card per
article; the remaining fields are presentation-only). -/
structure Article where
  id : Int
  title : String
  summary : String
  tags : List Tag
deriving DecidableEq, Repr

/-- One child of the results container: an article card appended by
displayArticleResults, or a message installed by the error and
empty-result paths of fetchAndDisplaySummaries. -/
inductive DisplayItem where
  | card (a : Article)
  | errorText (msg : String)
  | infoText (msg : String)
deriving DecidableEq, Repr

/-- The JSON body of a successful summaries-query response, as read by
fetchAndDisplaySummaries (requested_page is carried but never read). -/
structure FetchResponse where
  processed_articles_on_page : List Article
  total_articles_available : Int
  total_pages : Int
  requested_page : Int
deriving DecidableEq, Repr

/-- Outcome of the awaited apiService.fetchNewsSummaries call: the
parsed response, or a thrown error carrying error.message. -/
inductive FetchResult where
  | ok (data : FetchResponse)
  | err (msg : String)
deriving DecidableEq, Repr

/-- The state.js module state together with the children of the
results container (the rendered article list). -/
structure World where
  st : AppState
  display : List DisplayItem
deriving DecidableEq, Repr

/-- uiManager.displayArticleResults: empties the container first when
clearPrevious holds, then appends one card per article in order. -/
def displayArticleResults (articles : List Article) (clearPrevious : Bool)
    (disp : List DisplayItem) : List DisplayItem :=
  (if clearPrevious then [] else disp) ++ articles.map DisplayItem.card

/-- uiManager.setResultsContainerContent: replaces the container's
children wholesale. -/
def setResultsContainerContent (item : DisplayItem)
    (_disp : List DisplayItem) : List DisplayItem :=
  [item]

/-- Synchronous prefix of fetchAndDisplaySummaries, executed at dispatch
time before the network await: resets currentPage when the requested
page is 1 and raises the isLoadingMoreArticles guard. -/
def fetchStart (page : Int) (st : AppState) : AppState :=
  setIsLoadingMoreArticles true (if page = 1 then setCurrentPage 1 st else st)

/-- Message shown by fetchAndDisplaySummaries when page 1 comes back
empty with no articles available and a filter or feed is configured. -/
def noResultsMsg : String :=
  "No articles found for the current filter."

/-- Message shown by fetchAndDisplaySummaries when page 1 comes back
empty with no feeds configured, no tag filter and no keyword. -/
def noFeedsMsg : String :=
  "No RSS feeds configured. Please add some in the Setup tab or try searching."

/-- Continuation of fetchAndDisplaySummaries from the resolution of the
awaited fetch to the end of the function, for a dispatch that requested
the given page with the given keyword argument: the try branch merges
total_pages (and, on page 1, total_articles_available) into the state
and renders the returned articles (replacing on page 1, appending
otherwise), installing an empty-state message when page 1 is empty and
nothing is available; the catch branch shows the error (replacing the
container on page 1, appending an inline error element otherwise) and
pins totalPages to the current page; the finally branch lowers the
isLoadingMoreArticles guard. -/
def fetchComplete (page : Int) (keyword : Option String) (r : FetchResult)
    (w : World) : World :=
  match r with
  | .ok data =>
    let st := if page = 1
      then setTotalArticlesAvailable data.total_articles_available w.st
      else w.st
    let st := setTotalPages data.total_pages st
    let disp := displayArticleResults data.processed_articles_on_page
      (page = 1) w.display
    let disp :=
      if page = 1 ∧ data.processed_articles_on_page = []
          ∧ data.total_articles_available = 0 then
        if st.dbFeedSources = [] ∧ st.activeTagFilterIds = []
            ∧ jsFalsyKw keyword then
          setResultsContainerContent (DisplayItem.infoText noFeedsMsg) disp
        else
          setResultsContainerContent (DisplayItem.infoText noResultsMsg) disp
      else disp
    { st := setIsLoadingMoreArticles false st, display := disp }
  | .err msg =>
    let disp :=
      if page = 1 then
        setResultsContainerContent
          (DisplayItem.errorText ("Error fetching summaries: " ++ msg)) w.display
      else
        w.display ++ [DisplayItem.errorText ("Error fetching more articles: " ++ msg)]
    let st := setTotalPages w.st.currentPage w.st
    { st := setIsLoadingMoreArticles false st, display := disp }

/-- A whole fetchAndDisplaySummaries call whose awaited fetch resolves
with r, with no other event interleaved between dispatch and
resolution. -/
def fetchAndDisplaySummaries (page : Int) (keyword : Option String)
    (r : FetchResult) (w : World) : World :=
  fetchComplete page keyword r { w with st := fetchStart page w.st }

/-- handleArticleTagClick of the orchestrator script: toggles the
clicked tag (remove when a tag with that id is active, add otherwise),
clears the feed filter and the keyword, resets the page to 1 and starts
a page-1 dispatch. -/
def handleArticleTagClick (tagId : Int) (tagName : String) (st : AppState) :
    AppState :=
  let st := if st.activeTagFilterIds.any (fun t => t.id == tagId)
    then removeActiveTagFilter tagId st
    else addActiveTagFilter { id := tagId, name := tagName } st
  let st := setActiveFeedFilterIds [] st
  let st := setCurrentKeywordSearch none st
  let st := setCurrentPage 1 st
  fetchStart 1 st

/-- handleRemoveTagFilter of the orchestrator script: removes the tag,
resets the page to 1 and starts a page-1 dispatch (the keyword and feed
filter are left alone). -/
def handleRemoveTagFilter (tagIdToRemove : Int) (st : AppState) : AppState :=
  let st := removeActiveTagFilter tagIdToRemove st
  let st := setCurrentPage 1 st
  fetchStart 1 st

/-- handleFeedFilterClick of the orchestrator script: toggles the
clicked feed (clear when already active, replace otherwise), clears the
tag filters and the keyword, resets the page to 1 and starts a page-1
dispatch. -/
def handleFeedFilterClick (feedId : Int) (st : AppState) : AppState :=
  let st := if st.activeFeedFilterIds.contains feedId
    then setActiveFeedFilterIds [] st
    else setActiveFeedFilterIds [feedId] st
  let st := setActiveTagFilterIds [] st
  let st := setCurrentKeywordSearch none st
  let st := setCurrentPage 1 st
  fetchStart 1 st

/-- handleAllFeedsClick of the orchestrator script: returns immediately
when no feed filter, no tag filter and no truthy keyword is active;
otherwise clears the feed filter only (the tag and keyword clearing
lines are commented out in the source), resets the page to 1 and starts
a page-1 dispatch. -/
def handleAllFeedsClick (st : AppState) : AppState :=
  if st.activeFeedFilterIds = [] ∧ st.activeTagFilterIds = []
      ∧ jsFalsyKw st.currentKeywordSearch then st
  else
    let st := setActiveFeedFilterIds [] st
    let st := setCurrentPage 1 st
    fetchStart 1 st

/-- The keyword search button click handler of the orchestrator script:
stores the trimmed input (normalizing a blank trim result to null via
the searchTerm-or-null expression), clears the feed and tag filters,
resets the page to 1 and starts a page-1 dispatch. -/
def keywordSearchClick (inputValue : String) (st : AppState) : AppState :=
  let searchTerm := jsTrim inputValue
  let st := setCurrentKeywordSearch
    (if searchTerm = "" then none else some searchTerm) st
  let st := setActiveFeedFilterIds [] st
  let st := setActiveTagFilterIds [] st
  let st := setCurrentPage 1 st
  fetchStart 1 st

/-- configManager.saveArticlesPerPage: accepts a count in 1..50, storing
it and resetting the page to 1 before invoking the refetch callback
(whose synchronous prefix resets the page again and starts a page-1
dispatch); any other count only raises the validation alert, returned
as the second component. -/
def saveArticlesPerPage (count : Int) (st : AppState) :
    AppState × Option String :=
  if 1 ≤ count ∧ count ≤ 50 then
    let st := setArticlesPerPage count st
    let st := setCurrentPage 1 st
    let st := fetchStart 1 (setCurrentPage 1 st)
    (st, none)
  else
    (st, some "Please enter a number of articles per page between 1 and 50.")

/-- The infinite-scroll listener of the orchestrator script, at a moment
when the scroll position has passed the threshold: when no fetch is in
flight and currentPage < totalPages it advances currentPage and
dispatches a fetch for the new page (resolved here with r); otherwise
nothing happens. -/
def scrollTrigger (keyword : Option String) (r : FetchResult) (w : World) :
    World :=
  if w.st.isLoadingMoreArticles = false ∧ w.st.currentPage < w.st.totalPages then
    let st := setCurrentPage (w.st.currentPage + 1) w.st
    fetchAndDisplaySummaries st.currentPage keyword r { w with st := st }
  else w

/-- The head surviving a dropWhile fails the predicate. -/
theorem dropWhile_head_false {p : Char → Bool} {l : List Char} {a : Char}
    {t : List Char} (h : List.dropWhile p l = a :: t) : p a = false := by
  induction l with
  | nil => simp [List.dropWhile] at h
  | cons x xs ih =>
    rw [List.dropWhile_cons] at h
    cases hx : p x with
    | true => rw [hx] at h; simp at h; exact ih h
    | false => rw [hx] at h; simp at h; rw [← h.1]; exact hx

/-- dropWhile is idempotent. -/
theorem dropWhile_idem {p : Char → Bool} (l : List Char) :
    (l.dropWhile p).dropWhile p = l.dropWhile p := by
  cases h : l.dropWhile p with
  | nil => simp
  | cons a t =>
    rw [List.dropWhile_cons, dropWhile_head_false h]
    simp

/-- The list form of the JavaScript trim is idempotent. -/
theorem jsTrimList_idem (l : List Char) :
    jsTrimList (jsTrimList l) = jsTrimList l := by
  unfold jsTrimList
  generalize hl1 : l.dropWhile jsIsSpace = l1
  generalize hl2 : l1.reverse.dropWhile jsIsSpace = l2
  have hsplit : l1.reverse.takeWhile jsIsSpace ++ l2 = l1.reverse := by
    rw [← hl2]; exact List.takeWhile_append_dropWhile _ _
  have hdecomp : l1 = l2.reverse ++ (l1.reverse.takeWhile jsIsSpace).reverse := by
    have h := congrArg List.reverse hsplit
    simp only [List.reverse_append, List.reverse_reverse] at h
    exact h.symm
  have stepA : l2.reverse.dropWhile jsIsSpace = l2.reverse := by
    cases h3 : l2.reverse with
    | nil => simp
    | cons a t =>
      have hcons : l.dropWhile jsIsSpace
          = a :: (t ++ (l1.reverse.takeWhile jsIsSpace).reverse) := by
        conv_lhs => rw [hl1, hdecomp, h3]
        simp
      rw [List.dropWhile_cons, dropWhile_head_false hcons]
      simp
  rw [stepA, List.reverse_reverse, ← hl2, dropWhile_idem]

/-- The JavaScript trim is idempotent. -/
theorem jsTrim_idem (s : String) : jsTrim (jsTrim s) = jsTrim s := by
  show String.mk (jsTrimList (String.toList (String.mk (jsTrimList s.toList))))
      = String.mk (jsTrimList s.toList)
  rw [show ∀ l, String.toList (String.mk l) = l from fun _ => rfl,
    jsTrimList_idem]

/-- Claim C9: for every dispatch, whether it resolves successfully or
with any error, the isLoadingMoreArticles in-flight guard is false when
fetchAndDisplaySummaries finishes, because the flag is lowered in the
finally block of both outcomes. -/
theorem claim_C9_inflight_cleared (page : Int) (keyword : Option String)
    (r : FetchResult) (w : World) :
    (fetchAndDisplaySummaries page keyword r w).st.isLoadingMoreArticles = false := by
  cases r <;>
    simp [fetchAndDisplaySummaries, fetchComplete, setIsLoadingMoreArticles]

/-- Claim C7: the keyword search operation stores the trimmed input,
and an input that trims to the empty string is stored as null (no
filter), never as an empty-string filter. -/
theorem claim_C7_keyword_trimmed (inputValue : String) (st : AppState) :
    (keywordSearchClick inputValue st).currentKeywordSearch
      = if jsTrim inputValue = "" then none else some (jsTrim inputValue) := by
  simp only [keywordSearchClick, setCurrentKeywordSearch, setActiveFeedFilterIds,
    setActiveTagFilterIds, setCurrentPage, fetchStart, setIsLoadingMoreArticles]
  norm_num
  split
  · rfl
  · simp [jsTrim_idem]

/-- Claim C5: saveArticlesPerPage succeeds exactly for counts in 1..50;
a rejected count only raises the validation alert and leaves the state
unchanged, while an accepted count is stored and resets the page
to 1. -/
theorem claim_C5_page_size_bounds (n : Int) (st : AppState) :
    ((saveArticlesPerPage n st).2 = none ↔ 1 ≤ n ∧ n ≤ 50) ∧
    (1 ≤ n → n ≤ 50 →
      (saveArticlesPerPage n st).1.articlesPerPage = n ∧
      (saveArticlesPerPage n st).1.currentPage = 1) ∧
    (¬(1 ≤ n ∧ n ≤ 50) → (saveArticlesPerPage n st).1 = st) := by
  by_cases h : 1 ≤ n ∧ n ≤ 50
  · have hpos : 0 < n := lt_of_lt_of_le zero_lt_one h.1
    refine ⟨by simp [saveArticlesPerPage, h], fun _ _ => ?_, fun hc => absurd h hc⟩
    constructor <;>
      simp [saveArticlesPerPage, h, setArticlesPerPage, setCurrentPage,
        fetchStart, setIsLoadingMoreArticles, hpos]
  · refine ⟨?_, fun h1 h2 => absurd ⟨h1, h2⟩ h, fun _ => ?_⟩ <;>
      simp [saveArticlesPerPage, h]

/-- Closed witness for claim C5 at the boundary count 50. -/
theorem claim_C5_page_size_bounds_witness :
    (saveArticlesPerPage 50 initialState).2 = none ∧
    (saveArticlesPerPage 50 initialState).1.articlesPerPage = 50 ∧
    (saveArticlesPerPage 50 initialState).1.currentPage = 1 := by
  have h := claim_C5_page_size_bounds 50 initialState
  refine ⟨h.1.mpr (by decide), ?_, ?_⟩
  · exact (h.2.1 (by decide) (by decide)).1
  · exact (h.2.1 (by decide) (by decide)).2

/-- The filter mutation operations named by the filter-exclusivity
property: a feed filter button click, a tag click on an article card,
and a keyword search submission. -/
inductive FilterOp where
  | feedClick (feedId : Int)
  | tagClick (tagId : Int) (tagName : String)
  | keywordSubmit (inputValue : String)

/-- Runs one filter mutation operation. -/
def applyFilterOp : FilterOp → AppState → AppState
  | .feedClick feedId, st => handleFeedFilterClick feedId st
  | .tagClick tagId tagName, st => handleArticleTagClick tagId tagName st
  | .keywordSubmit inputValue, st => keywordSearchClick inputValue st

/-- Runs a sequence of filter mutation operations from left to right. -/
def applyFilterOps (ops : List FilterOp) (st : AppState) : AppState :=
  ops.foldl (fun s o => applyFilterOp o s) st

/-- At most one of the three filter dimensions is non-empty, that is,
at least two of them are empty. -/
def atMostOneFilterDim (st : AppState) : Prop :=
  (st.activeFeedFilterIds = [] ∧ st.activeTagFilterIds = []) ∨
  (st.activeFeedFilterIds = [] ∧ st.currentKeywordSearch = none) ∨
  (st.activeTagFilterIds = [] ∧ st.currentKeywordSearch = none)

/-- Each single filter mutation operation clears the two dimensions it
does not own. -/
theorem applyFilterOp_exclusive (op : FilterOp) (st : AppState) :
    atMostOneFilterDim (applyFilterOp op st) := by
  cases op with
  | feedClick feedId =>
    right; right
    constructor <;>
      simp [applyFilterOp, handleFeedFilterClick, setActiveFeedFilterIds,
        setActiveTagFilterIds, setCurrentKeywordSearch, setCurrentPage,
        fetchStart, setIsLoadingMoreArticles]
  | tagClick tagId tagName =>
    right; left
    constructor <;>
      simp [applyFilterOp, handleArticleTagClick, setActiveFeedFilterIds,
        setCurrentKeywordSearch, setCurrentPage, fetchStart,
        setIsLoadingMoreArticles]
  | keywordSubmit inputValue =>
    left
    constructor <;>
      simp [applyFilterOp, keywordSearchClick, setCurrentKeywordSearch,
        setActiveFeedFilterIds, setActiveTagFilterIds, setCurrentPage,
        fetchStart, setIsLoadingMoreArticles]

/-- Claim C2: after every call in any sequence of filter mutation
operations (feed-filter click, tag-filter toggle, keyword search
submit), at most one of the three filter dimensions is non-empty,
because each operation clears the other two dimensions. -/
theorem claim_C2_filter_exclusivity (st : AppState) (ops : List FilterOp)
    (op : FilterOp) :
    atMostOneFilterDim (applyFilterOps (ops ++ [op]) st) := by
  have h : applyFilterOps (ops ++ [op]) st
      = applyFilterOp op (applyFilterOps ops st) := by
    simp [applyFilterOps, List.foldl_append]
  rw [h]
  exact applyFilterOp_exclusive op (applyFilterOps ops st)

/-- Effect of a tag click on the tagFilters collection alone: remove
when a tag with that id is active, append at the end otherwise. -/
theorem handleArticleTagClick_tags (tagId : Int) (tagName : String)
    (st : AppState) :
    (handleArticleTagClick tagId tagName st).activeTagFilterIds
      = if st.activeTagFilterIds.any (fun t => t.id == tagId)
        then st.activeTagFilterIds.filter (fun t => t.id ≠ tagId)
        else st.activeTagFilterIds ++ [{ id := tagId, name := tagName }] := by
  by_cases h : st.activeTagFilterIds.any (fun t => t.id == tagId) <;>
    simp [handleArticleTagClick, removeActiveTagFilter, addActiveTagFilter,
      setActiveFeedFilterIds, setCurrentKeywordSearch, setCurrentPage,
      fetchStart, setIsLoadingMoreArticles, h]

/-- Counterexample to claim C8 as stated: with tagFilters
[(1,a), (2,b)], toggling the tag (1,a) twice ends with the toggled tag
re-appended at the end, so the insertion order of the original state is
not restored. -/
theorem claim_C8_counterexample :
    (handleArticleTagClick 1 "a" (handleArticleTagClick 1 "a"
        { initialState with
          activeTagFilterIds := [{ id := 1, name := "a" },
            { id := 2, name := "b" }] })).activeTagFilterIds
      = [{ id := 2, name := "b" }, { id := 1, name := "a" }] ∧
    ([{ id := 2, name := "b" }, { id := 1, name := "a" }] : List Tag)
      ≠ [{ id := 1, name := "a" }, { id := 2, name := "b" }] := by
  decide

/-- Claim C8 amended: toggling the same tag twice restores tagFilters
exactly (insertion order included) when the tag id was initially
absent; when a tag with that id was initially present, the double
toggle instead removes it and re-appends the clicked pair at the end of
the collection. -/
theorem claim_C8_tag_toggle_amended (st : AppState) (tagId : Int)
    (tagName : String) :
    ((∀ t ∈ st.activeTagFilterIds, t.id ≠ tagId) →
      (handleArticleTagClick tagId tagName
        (handleArticleTagClick tagId tagName st)).activeTagFilterIds
        = st.activeTagFilterIds) ∧
    ((∃ t ∈ st.activeTagFilterIds, t.id = tagId) →
      (handleArticleTagClick tagId tagName
        (handleArticleTagClick tagId tagName st)).activeTagFilterIds
        = st.activeTagFilterIds.filter (fun t => t.id ≠ tagId)
          ++ [{ id := tagId, name := tagName }]) := by
  constructor
  · intro habs
    have hc : st.activeTagFilterIds.any (fun t => t.id == tagId) = false := by
      simp only [List.any_eq_false, beq_iff_eq]
      exact habs
    have h1 : (handleArticleTagClick tagId tagName st).activeTagFilterIds
        = st.activeTagFilterIds ++ [{ id := tagId, name := tagName }] := by
      rw [handleArticleTagClick_tags, hc]; simp
    have hc2 : ((handleArticleTagClick tagId tagName st).activeTagFilterIds.any
        (fun t => t.id == tagId)) = true := by
      rw [h1]; simp
    rw [handleArticleTagClick_tags, hc2, if_pos rfl, h1, List.filter_append]
    have hl : st.activeTagFilterIds.filter (fun t => t.id ≠ tagId)
        = st.activeTagFilterIds := by
      rw [List.filter_eq_self]
      intro t ht
      simpa using habs t ht
    simp [hl]
    exact habs
  · intro hpres
    have hc : st.activeTagFilterIds.any (fun t => t.id == tagId) = true := by
      simp only [List.any_eq_true, beq_iff_eq]
      exact hpres
    have h1 : (handleArticleTagClick tagId tagName st).activeTagFilterIds
        = st.activeTagFilterIds.filter (fun t => t.id ≠ tagId) := by
      rw [handleArticleTagClick_tags, hc, if_pos rfl]
    have hc2 : ((handleArticleTagClick tagId tagName st).activeTagFilterIds.any
        (fun t => t.id == tagId)) = false := by
      rw [h1]
      simp only [List.any_eq_false, beq_iff_eq]
      intro t ht
      have := List.of_mem_filter ht
      simpa using this
    rw [handleArticleTagClick_tags, hc2, h1]
    simp

/-- Closed witness for the amended claim C8, exercising both the
initially-absent branch (tag id 3) and the initially-present branch
(tag id 1) on a concrete two-tag state. -/
theorem claim_C8_tag_toggle_amended_witness :
    (handleArticleTagClick 3 "c" (handleArticleTagClick 3 "c"
        { initialState with
          activeTagFilterIds := [{ id := 1, name := "a" },
            { id := 2, name := "b" }] })).activeTagFilterIds
      = [{ id := 1, name := "a" }, { id := 2, name := "b" }] ∧
    (handleArticleTagClick 1 "a" (handleArticleTagClick 1 "a"
        { initialState with
          activeTagFilterIds := [{ id := 1, name := "a" },
            { id := 2, name := "b" }] })).activeTagFilterIds
      = [{ id := 2, name := "b" }, { id := 1, name := "a" }] := by
  constructor
  · exact (claim_C8_tag_toggle_amended _ 3 "c").1 (by decide)
  · have h := (claim_C8_tag_toggle_amended
      { initialState with
        activeTagFilterIds := [{ id := 1, name := "a" },
          { id := 2, name := "b" }] } 1 "a").2 (by decide)
    rw [h]
    decide

/-- The operations the application performs on activeTagFilterIds: the
two dedicated state.js mutators, plus setActiveTagFilterIds, which the
orchestrator script only ever invokes with the empty list (to clear the
tag filters on a feed click or keyword search). -/
inductive TagStateOp where
  | add (tagObj : Tag)
  | remove (tagId : Int)
  | clear

/-- Runs one operation on the tag-filter collection. -/
def applyTagStateOp : TagStateOp → AppState → AppState
  | .add tagObj, st => addActiveTagFilter tagObj st
  | .remove tagId, st => removeActiveTagFilter tagId st
  | .clear, st => setActiveTagFilterIds [] st

/-- Runs a sequence of tag-filter operations from left to right. -/
def applyTagStateOps (ops : List TagStateOp) (st : AppState) : AppState :=
  ops.foldl (fun s o => applyTagStateOp o s) st

/-- No two entries of the active tag-filter collection share an id. -/
def tagIdsNodup (st : AppState) : Prop :=
  (st.activeTagFilterIds.map Tag.id).Nodup

/-- Each tag-filter operation preserves id-uniqueness. -/
theorem applyTagStateOp_nodup (op : TagStateOp) (st : AppState)
    (h : tagIdsNodup st) : tagIdsNodup (applyTagStateOp op st) := by
  cases op with
  | add tagObj =>
    by_cases hc : st.activeTagFilterIds.any (fun t => t.id == tagObj.id) = true
    · simpa [applyTagStateOp, addActiveTagFilter, hc] using h
    · have hne : ∀ t ∈ st.activeTagFilterIds, t.id ≠ tagObj.id := by
        intro t ht he
        apply hc
        rw [List.any_eq_true]
        exact ⟨t, ht, by simp [he]⟩
      have hnotin : tagObj.id ∉ st.activeTagFilterIds.map Tag.id := by
        rw [List.mem_map]
        rintro ⟨t, ht, hid⟩
        exact hne t ht hid
      show (((addActiveTagFilter tagObj st).activeTagFilterIds).map Tag.id).Nodup
      rw [addActiveTagFilter, if_neg hc]
      simp only [List.map_append, List.map_cons, List.map_nil]
      rw [List.nodup_append]
      refine ⟨h, List.nodup_singleton _, ?_⟩
      intro x hx hx2
      rw [List.mem_singleton] at hx2
      exact hnotin (hx2 ▸ hx)
  | remove tagId =>
    have hsub : ((st.activeTagFilterIds.filter
        (fun t => t.id ≠ tagId)).map Tag.id).Sublist
        (st.activeTagFilterIds.map Tag.id) :=
      (List.filter_sublist _).map Tag.id
    exact hsub.nodup h
  | clear =>
    simp [applyTagStateOp, setActiveTagFilterIds, tagIdsNodup]

/-- Claim C10: starting from the initial empty collection, any sequence
of the application's tag-filter operations leaves the active tag-filter
collection free of duplicate ids; adding a tag whose id is already
present leaves the collection unchanged; and each single operation
preserves id-uniqueness. -/
theorem claim_C10_tag_id_uniqueness :
    (∀ ops : List TagStateOp,
      tagIdsNodup (applyTagStateOps ops initialState)) ∧
    (∀ (tagObj : Tag) (st : AppState),
      (∃ u ∈ st.activeTagFilterIds, u.id = tagObj.id) →
        addActiveTagFilter tagObj st = st) ∧
    (∀ (op : TagStateOp) (st : AppState),
      tagIdsNodup st → tagIdsNodup (applyTagStateOp op st)) := by
  refine ⟨?_, ?_, applyTagStateOp_nodup⟩
  · intro ops
    have gen : ∀ (ops : List TagStateOp) (st : AppState), tagIdsNodup st →
        tagIdsNodup (applyTagStateOps ops st) := by
      intro ops
      induction ops with
      | nil => intro st h; exact h
      | cons op rest ih =>
        intro st h
        exact ih _ (applyTagStateOp_nodup op st h)
    exact gen ops initialState (by simp [tagIdsNodup, initialState])
  · intro tagObj st hmem
    have hc : st.activeTagFilterIds.any (fun t => t.id == tagObj.id) = true := by
      simp only [List.any_eq_true, beq_iff_eq]
      exact hmem
    simp [addActiveTagFilter, hc]

/-- Closed witness for claim C10: a concrete operation sequence with a
duplicate-id insertion attempt, plus the no-op of re-adding an
id already present. -/
theorem claim_C10_tag_id_uniqueness_witness :
    tagIdsNodup (applyTagStateOps
      [TagStateOp.add { id := 1, name := "a" },
       TagStateOp.add { id := 1, name := "b" },
       TagStateOp.add { id := 2, name := "c" }] initialState) ∧
    addActiveTagFilter { id := 1, name := "b" }
        { initialState with activeTagFilterIds := [{ id := 1, name := "a" }] }
      = { initialState with activeTagFilterIds := [{ id := 1, name := "a" }] } ∧
    tagIdsNodup (applyTagStateOp (TagStateOp.remove 1)
      { initialState with activeTagFilterIds := [{ id := 1, name := "a" }] }) := by
  have h := claim_C10_tag_id_uniqueness
  refine ⟨h.1 _, h.2.1 _ _ ?_, h.2.2 _ _ ?_⟩
  · exact ⟨{ id := 1, name := "a" }, by simp⟩
  · simp [tagIdsNodup]

/-- Counterexample to claim C6 as stated: with no filter active and
currentPage at 2 (for example after a scroll through the unfiltered
list), clicking the All Feeds button takes the early-return branch and
leaves currentPage at 2, so not every invocation of a filter-mutating
operation returns with page equal to 1. -/
theorem claim_C6_counterexample :
    handleAllFeedsClick { initialState with currentPage := 2 }
        = { initialState with currentPage := 2 } ∧
    ({ initialState with currentPage := 2 } : AppState).currentPage ≠ 1 := by
  constructor
  · rfl
  · decide

/-- Claim C6 amended: currentPage equals 1 immediately after every tag
toggle, tag-filter removal, feed-filter click and keyword submission;
after an All Feeds click provided the click is not the early-returning
no-op (some feed filter, tag filter or truthy keyword was active); and
after a page-size change whose count passes validation. -/
theorem claim_C6_page_reset_amended (st : AppState) (tagId : Int)
    (tagName : String) (feedId : Int) (inputValue : String) (n : Int) :
    (handleArticleTagClick tagId tagName st).currentPage = 1 ∧
    (handleRemoveTagFilter tagId st).currentPage = 1 ∧
    (handleFeedFilterClick feedId st).currentPage = 1 ∧
    (keywordSearchClick inputValue st).currentPage = 1 ∧
    (¬(st.activeFeedFilterIds = [] ∧ st.activeTagFilterIds = []
        ∧ jsFalsyKw st.currentKeywordSearch = true) →
      (handleAllFeedsClick st).currentPage = 1) ∧
    (1 ≤ n → n ≤ 50 → (saveArticlesPerPage n st).1.currentPage = 1) := by
  refine ⟨?_, ?_, ?_, ?_, ?_, ?_⟩
  · simp [handleArticleTagClick, removeActiveTagFilter, addActiveTagFilter,
      setActiveFeedFilterIds, setCurrentKeywordSearch, setCurrentPage,
      fetchStart, setIsLoadingMoreArticles]
  · simp [handleRemoveTagFilter, removeActiveTagFilter, setCurrentPage,
      fetchStart, setIsLoadingMoreArticles]
  · simp [handleFeedFilterClick, setActiveFeedFilterIds,
      setActiveTagFilterIds, setCurrentKeywordSearch, setCurrentPage,
      fetchStart, setIsLoadingMoreArticles]
  · simp [keywordSearchClick, setCurrentKeywordSearch,
      setActiveFeedFilterIds, setActiveTagFilterIds, setCurrentPage,
      fetchStart, setIsLoadingMoreArticles]
  · intro h
    rw [handleAllFeedsClick, if_neg h]
    simp [setActiveFeedFilterIds, setCurrentPage, fetchStart,
      setIsLoadingMoreArticles]
  · intro h1 h2
    simp [saveArticlesPerPage, h1, h2, setArticlesPerPage, setCurrentPage,
      fetchStart, setIsLoadingMoreArticles]

/-- Closed witness for the amended claim C6, at a state with an active
feed filter and the count 25. -/
theorem claim_C6_page_reset_amended_witness :
    (handleAllFeedsClick
        { initialState with activeFeedFilterIds := [7], currentPage := 3 }).currentPage = 1 ∧
    (saveArticlesPerPage 25
        { initialState with currentPage := 4 }).1.currentPage = 1 := by
  have h1 := claim_C6_page_reset_amended
    { initialState with activeFeedFilterIds := [7], currentPage := 3 }
    0 "" 0 "" 25
  have h2 := claim_C6_page_reset_amended
    { initialState with currentPage := 4 } 0 "" 0 "" 25
  exact ⟨h1.2.2.2.2.1 (by decide), h2.2.2.2.2.2 (by decide) (by decide)⟩

/-- State component of a successful fetchAndDisplaySummaries call. -/
theorem fetch_ok_st (page : Int) (keyword : Option String)
    (data : FetchResponse) (w : World) :
    (fetchAndDisplaySummaries page keyword (.ok data) w).st
      = setIsLoadingMoreArticles false (setTotalPages data.total_pages
          (if page = 1
            then setTotalArticlesAvailable data.total_articles_available
              (fetchStart page w.st)
            else fetchStart page w.st)) := rfl

/-- State component of a failed fetchAndDisplaySummaries call. -/
theorem fetch_err_st (page : Int) (keyword : Option String) (msg : String)
    (w : World) :
    (fetchAndDisplaySummaries page keyword (.err msg) w).st
      = setIsLoadingMoreArticles false
          (setTotalPages (fetchStart page w.st).currentPage
            (fetchStart page w.st)) := rfl

/-- Display component of a failed fetchAndDisplaySummaries call. -/
theorem fetch_err_display (page : Int) (keyword : Option String)
    (msg : String) (w : World) :
    (fetchAndDisplaySummaries page keyword (.err msg) w).display
      = if page = 1
        then [DisplayItem.errorText ("Error fetching summaries: " ++ msg)]
        else w.display
          ++ [DisplayItem.errorText ("Error fetching more articles: " ++ msg)] := rfl

theorem setTotalPages_currentPage (pages : Int) (st : AppState) :
    (setTotalPages pages st).currentPage = st.currentPage := by
  unfold setTotalPages; split <;> rfl

theorem setTotalArticlesAvailable_currentPage (count : Int) (st : AppState) :
    (setTotalArticlesAvailable count st).currentPage = st.currentPage := by
  unfold setTotalArticlesAvailable; split <;> rfl

theorem setIsLoadingMoreArticles_currentPage (b : Bool) (st : AppState) :
    (setIsLoadingMoreArticles b st).currentPage = st.currentPage := rfl

theorem setIsLoadingMoreArticles_totalPages (b : Bool) (st : AppState) :
    (setIsLoadingMoreArticles b st).totalPages = st.totalPages := rfl

theorem setTotalPages_totalPages_of_nonneg (pages : Int) (st : AppState)
    (h : 0 ≤ pages) : (setTotalPages pages st).totalPages = pages := by
  unfold setTotalPages; rw [if_pos h]

theorem fetchStart_currentPage_one (st : AppState) :
    (fetchStart 1 st).currentPage = 1 := by
  simp [fetchStart, setCurrentPage, setIsLoadingMoreArticles]

theorem fetchStart_currentPage_ne_one (page : Int) (st : AppState)
    (h : page ≠ 1) : (fetchStart page st).currentPage = st.currentPage := by
  simp [fetchStart, setCurrentPage, setIsLoadingMoreArticles, h]

/-- The pagination invariant asserted by claim C3: the current page lies
in the closed interval from 1 to max(totalPages, 1). -/
def pageWithinBounds (st : AppState) : Prop :=
  1 ≤ st.currentPage ∧ st.currentPage ≤ max st.totalPages 1

/-- First fetch of the C3 counterexample trace: page 1 of the
unfiltered view, reported to have 2 total pages. -/
def c3World1 : World :=
  fetchAndDisplaySummaries 1 none
    (FetchResult.ok
      { processed_articles_on_page :=
          [{ id := 1, title := "t1", summary := "s1", tags := [] }],
        total_articles_available := 10, total_pages := 2,
        requested_page := 1 })
    { st := initialState, display := [] }

/-- Second step of the C3 counterexample trace: the scroll threshold
fires (page 1 < totalPages 2), the dispatched page-2 fetch succeeds but
its response now reports only 1 total page. -/
def c3World2 : World :=
  scrollTrigger none
    (FetchResult.ok
      { processed_articles_on_page :=
          [{ id := 2, title := "t2", summary := "s2", tags := [] }],
        total_articles_available := 1, total_pages := 1,
        requested_page := 2 })
    c3World1

/-- Counterexample to claim C3 as stated: after the successful
scroll-triggered fetch of page 2 whose response shrank total_pages to
1, the current page is 2 but max(totalPages, 1) is 1, so the page is
not within the claimed interval. -/
theorem claim_C3_counterexample :
    c3World2.st.currentPage = 2 ∧ c3World2.st.totalPages = 1 ∧
    ¬(c3World2.st.currentPage ≤ max c3World2.st.totalPages 1) := by
  decide

/-- Claim C3 amended: a successful page-1 fetch always restores the
pagination bounds, and a successful scroll-triggered fetch preserves
them provided the response's total_pages is at least the fetched page
(the page the scroll listener advanced to); when the response reports
fewer total pages than the fetched page, currentPage may exceed
totalPages, which in turn stops further scroll-triggered fetches. -/
theorem claim_C3_page_bounds_amended (w : World) (keyword : Option String)
    (data : FetchResponse) :
    pageWithinBounds (fetchAndDisplaySummaries 1 keyword (.ok data) w).st ∧
    (pageWithinBounds w.st → w.st.currentPage + 1 ≤ data.total_pages →
      pageWithinBounds (scrollTrigger keyword (.ok data) w).st) := by
  constructor
  · have hcp : (fetchAndDisplaySummaries 1 keyword (.ok data) w).st.currentPage
        = 1 := by
      rw [fetch_ok_st, setIsLoadingMoreArticles_currentPage,
        setTotalPages_currentPage, if_pos rfl,
        setTotalArticlesAvailable_currentPage, fetchStart_currentPage_one]
    refine ⟨le_of_eq hcp.symm, ?_⟩
    rw [hcp]
    exact le_max_right _ _
  · intro hinv hT
    unfold scrollTrigger
    split
    · rename_i hguard
      have hcp1 : 0 < w.st.currentPage + 1 := by have := hinv.1; omega
      have hset : (setCurrentPage (w.st.currentPage + 1) w.st).currentPage
          = w.st.currentPage + 1 := by
        unfold setCurrentPage; rw [if_pos hcp1]
      have hne1 : w.st.currentPage + 1 ≠ 1 := by have := hinv.1; omega
      show pageWithinBounds
        (fetchAndDisplaySummaries
          (setCurrentPage (w.st.currentPage + 1) w.st).currentPage keyword
          (FetchResult.ok data)
          { st := setCurrentPage (w.st.currentPage + 1) w.st,
            display := w.display }).st
      rw [hset]
      have hstproj :
          ({ st := setCurrentPage (w.st.currentPage + 1) w.st,
             display := w.display } : World).st
          = setCurrentPage (w.st.currentPage + 1) w.st := rfl
      constructor
      · rw [fetch_ok_st, setIsLoadingMoreArticles_currentPage,
          setTotalPages_currentPage, if_neg hne1, hstproj,
          fetchStart_currentPage_ne_one _ _ hne1, hset]
        omega
      · rw [fetch_ok_st, setIsLoadingMoreArticles_currentPage,
          setIsLoadingMoreArticles_totalPages, setTotalPages_currentPage,
          if_neg hne1, hstproj, fetchStart_currentPage_ne_one _ _ hne1, hset,
          setTotalPages_totalPages_of_nonneg _ _ (by omega)]
        exact le_trans hT (le_max_left _ _)
    · exact hinv

/-- Closed witness for the amended claim C3, at the concrete page-1
fetch of the counterexample trace and a scroll fetch whose response
keeps total_pages large enough. -/
theorem claim_C3_page_bounds_amended_witness :
    pageWithinBounds c3World1.st ∧
    pageWithinBounds (scrollTrigger none
      (FetchResult.ok
        { processed_articles_on_page := [],
          total_articles_available := 10, total_pages := 2,
          requested_page := 2 }) c3World1).st := by
  constructor
  · exact (claim_C3_page_bounds_amended
      { st := initialState, display := [] } none _).1
  · exact (claim_C3_page_bounds_amended c3World1 none _).2
      (by constructor <;> decide) (by decide)

/-- A world with one already-rendered article card, used to exhibit the
page-1 failure behaviour for claim C4. -/
def c4World : World :=
  { st := initialState,
    display := [DisplayItem.card
      { id := 9, title := "kept", summary := "s", tags := [] }] }

/-- Counterexample to claim C4 as universally stated: a failed page-1
dispatch does not leave the already-displayed article list unchanged;
it replaces the results area with the error message. -/
theorem claim_C4_counterexample :
    (fetchAndDisplaySummaries 1 none (FetchResult.err "network down")
        c4World).display ≠ c4World.display ∧
    (fetchAndDisplaySummaries 1 none (FetchResult.err "network down")
        c4World).display
      = [DisplayItem.errorText "Error fetching summaries: network down"] := by
  decide

/-- Claim C4 amended: every failed dispatch signals the fetch error
with the underlying message and pins totalPages to the current page so
that no further scroll-triggered fetch fires; on a scroll-triggered
(page greater than 1) failure the inline error is appended after the
already-rendered articles without discarding them, while on a page-1
failure the results area is replaced by the error message. -/
theorem claim_C4_failure_amended (w : World) (page : Int)
    (keyword : Option String) (msg : String)
    (h : 1 ≤ w.st.currentPage) :
    ((fetchAndDisplaySummaries page keyword (.err msg) w).st.totalPages
      = (fetchAndDisplaySummaries page keyword (.err msg) w).st.currentPage) ∧
    (page ≠ 1 →
      (fetchAndDisplaySummaries page keyword (.err msg) w).display
        = w.display
          ++ [DisplayItem.errorText ("Error fetching more articles: " ++ msg)]) ∧
    (page = 1 →
      (fetchAndDisplaySummaries page keyword (.err msg) w).display
        = [DisplayItem.errorText ("Error fetching summaries: " ++ msg)]) ∧
    (fetchAndDisplaySummaries page keyword (.err msg) w).st.isLoadingMoreArticles
      = false := by
  have hcp : 1 ≤ (fetchStart page w.st).currentPage := by
    by_cases hp : page = 1
    · rw [hp, fetchStart_currentPage_one]
    · rw [fetchStart_currentPage_ne_one _ _ hp]; exact h
  refine ⟨?_, ?_, ?_, rfl⟩
  · rw [fetch_err_st, setIsLoadingMoreArticles_currentPage,
      setIsLoadingMoreArticles_totalPages, setTotalPages_currentPage,
      setTotalPages_totalPages_of_nonneg _ _ (by omega)]
  · intro hp
    rw [fetch_err_display, if_neg hp]
  · intro hp
    rw [fetch_err_display, if_pos hp]

/-- Closed witness for the amended claim C4, at a concrete scroll-
triggered (page 2) failure over one rendered card. -/
theorem claim_C4_failure_amended_witness :
    (fetchAndDisplaySummaries 2 none (FetchResult.err "boom")
        c4World).st.totalPages
      = (fetchAndDisplaySummaries 2 none (FetchResult.err "boom")
        c4World).st.currentPage ∧
    (fetchAndDisplaySummaries 2 none (FetchResult.err "boom")
        c4World).display
      = c4World.display
        ++ [DisplayItem.errorText ("Error fetching more articles: " ++ "boom")] := by
  have hw := claim_C4_failure_amended c4World 2 none "boom" (by decide)
  exact ⟨hw.1, hw.2.1 (by decide)⟩

/-- The article returned by the stale first dispatch (generation G1). -/
def g1Article : Article :=
  { id := 101, title := "late stale result", summary := "s1", tags := [] }

/-- The article returned by the fresh second dispatch (generation G2). -/
def g2Article : Article :=
  { id := 202, title := "fresh result", summary := "s2", tags := [] }

/-- The interleaving of claim C1: two feed sources are configured; the
user clicks feed filter 1 (dispatch G1, page 1, left in flight), then
clicks feed filter 2 (dispatch G2, page 1); G2's response is applied
first, then G1's response arrives late and its continuation runs. -/
def c1WorldAfterG2 : World :=
  fetchComplete 1 none
    (FetchResult.ok
      { processed_articles_on_page := [g2Article],
        total_articles_available := 1, total_pages := 1,
        requested_page := 1 })
    { st := handleFeedFilterClick 2 (handleFeedFilterClick 1
        { initialState with dbFeedSources := [1, 2] }),
      display := [] }

/-- The same trace after the stale G1 response is applied last. -/
def c1WorldAfterStaleG1 : World :=
  fetchComplete 1 none
    (FetchResult.ok
      { processed_articles_on_page := [g1Article],
        total_articles_available := 1, total_pages := 1,
        requested_page := 1 })
    c1WorldAfterG2

/-- Claim C1 evaluated on the code: fetchAndDisplaySummaries carries no
request sequence number and never compares one against a QueryState
generation, so when the stale G1 response arrives after G2's response
was applied, its page-1 continuation clears the container and renders
G1's articles — the displayed list is G1's, not G2's, contradicting the
required stale-response discard. -/
theorem claim_C1_stale_overwrite :
    c1WorldAfterG2.display = [DisplayItem.card g2Article] ∧
    c1WorldAfterStaleG1.display = [DisplayItem.card g1Article] ∧
    g1Article ≠ g2Article := by
  decide
